import Mathlib

/-!
Shallow embedding of `prost-build/src/filters.rs`: the bitmask-based
selector/filter mechanism (two domains: `TypeFilter`/`TypeSelector` and
`FieldFilter`/`FieldSelector`), its `is_set` query, `From`/`BitOr`
constructions, the `TryFrom<u32>` reverse lookup, the `fmt::Debug`
diagnostic renderer, and the `From<Type>` wire-kind classifier.
Masks are `u32` in the source; we model them as `Nat`, noting that every
value produced by the API stays below `2 ^ 32`.
-/

/-- Alias for the string type, usable inside namespaces that declare a
variant named `String`. -/
abbrev Str := String

deriving instance DecidableEq for Except

/-- Selector for output objects during code generation.
Variant values are the `repr(u32)` discriminants from the source. -/
inductive TypeSelector where
  | ProtobufMessage
  | ProtobufEnum
  | ProtobufOneof
  | RustStruct
  | RustEnum
  | RustEnumCLike
  | RustEnumWithData
  | Everything
deriving DecidableEq, Fintype

/-- The `repr(u32)` discriminant of each `TypeSelector` variant
(`en as u32` in the source). `Everything = u32::MAX`. -/
def TypeSelector.toU32 : TypeSelector → Nat
  | .ProtobufMessage => 1
  | .ProtobufEnum => 2
  | .ProtobufOneof => 4
  | .RustStruct => 8
  | .RustEnum => 16
  | .RustEnumCLike => 32
  | .RustEnumWithData => 64
  | .Everything => 4294967295

/-- The variant name printed by the derived `Debug` implementation. -/
def TypeSelector.debugName : TypeSelector → String
  | .ProtobufMessage => "ProtobufMessage"
  | .ProtobufEnum => "ProtobufEnum"
  | .ProtobufOneof => "ProtobufOneof"
  | .RustStruct => "RustStruct"
  | .RustEnum => "RustEnum"
  | .RustEnumCLike => "RustEnumCLike"
  | .RustEnumWithData => "RustEnumWithData"
  | .Everything => "Everything"

/-- A collection of `TypeSelector`s, an opaque wrapper on a `u32` mask. -/
structure TypeFilter where
  mask : Nat
deriving DecidableEq

/-- `#[derive(Default)]`: the zero mask. -/
def TypeFilter.default : TypeFilter := TypeFilter.mk 0

/-- `TypeFilter::is_set`: `self.0 & (en as u32) != 0`. -/
def TypeFilter.is_set (f : TypeFilter) (en : TypeSelector) : Bool :=
  f.mask &&& en.toU32 != 0

/-- `From<TypeSelector> for TypeFilter`: singleton filter. -/
def TypeFilter.ofSelector (en : TypeSelector) : TypeFilter :=
  TypeFilter.mk en.toU32

/-- `BitOr<TypeFilter> for TypeFilter`: `TypeFilter(self.0 | rhs.0)`. -/
def TypeFilter.or (a b : TypeFilter) : TypeFilter :=
  TypeFilter.mk (a.mask ||| b.mask)

/-- `BitOr for TypeSelector` with a selector right-hand side:
`TypeFilter::from(self) | rhs.into()`. -/
def TypeSelector.orSel (a b : TypeSelector) : TypeFilter :=
  (TypeFilter.ofSelector a).or (TypeFilter.ofSelector b)

/-- `BitOr for TypeSelector` with a filter right-hand side. -/
def TypeSelector.orFil (a : TypeSelector) (b : TypeFilter) : TypeFilter :=
  (TypeFilter.ofSelector a).or b

/-- `TryFrom<u32> for TypeSelector`: matches the declared ordinary
variants in order (the wildcard `Everything` is not in the list),
otherwise `Err` with the input value unchanged. -/
def TypeSelector.tryFrom (value : Nat) : Except Nat TypeSelector :=
  if value = 1 then Except.ok .ProtobufMessage
  else if value = 2 then Except.ok .ProtobufEnum
  else if value = 4 then Except.ok .ProtobufOneof
  else if value = 8 then Except.ok .RustStruct
  else if value = 16 then Except.ok .RustEnum
  else if value = 32 then Except.ok .RustEnumCLike
  else if value = 64 then Except.ok .RustEnumWithData
  else Except.error value

/-- Selector for field categories. Variant values are the `repr(u32)`
discriminants from the source; note bit 0 is unassigned (`Double = 1<<1`). -/
inductive FieldSelector where
  | Double
  | Float
  | Int64
  | Uint64
  | Int32
  | Fixed64
  | Fixed32
  | Bool
  | String
  | Group
  | Message
  | Bytes
  | Uint32
  | Enum
  | Sfixed32
  | Sfixed64
  | Sint32
  | Sint64
  | NoDataEnumVariant
  | OneofField
  | MapField
  | Everything
deriving DecidableEq, Fintype

/-- The `repr(u32)` discriminant of each `FieldSelector` variant. -/
def FieldSelector.toU32 : FieldSelector → Nat
  | .Double => 2
  | .Float => 4
  | .Int64 => 8
  | .Uint64 => 16
  | .Int32 => 32
  | .Fixed64 => 64
  | .Fixed32 => 128
  | .Bool => 256
  | .String => 512
  | .Group => 1024
  | .Message => 2048
  | .Bytes => 4096
  | .Uint32 => 8192
  | .Enum => 16384
  | .Sfixed32 => 32768
  | .Sfixed64 => 65536
  | .Sint32 => 131072
  | .Sint64 => 262144
  | .NoDataEnumVariant => 524288
  | .OneofField => 1048576
  | .MapField => 2097152
  | .Everything => 4294967295

/-- The variant name printed by the derived `Debug` implementation. -/
def FieldSelector.debugName : FieldSelector → Str
  | .Double => "Double"
  | .Float => "Float"
  | .Int64 => "Int64"
  | .Uint64 => "Uint64"
  | .Int32 => "Int32"
  | .Fixed64 => "Fixed64"
  | .Fixed32 => "Fixed32"
  | .Bool => "Bool"
  | .String => "String"
  | .Group => "Group"
  | .Message => "Message"
  | .Bytes => "Bytes"
  | .Uint32 => "Uint32"
  | .Enum => "Enum"
  | .Sfixed32 => "Sfixed32"
  | .Sfixed64 => "Sfixed64"
  | .Sint32 => "Sint32"
  | .Sint64 => "Sint64"
  | .NoDataEnumVariant => "NoDataEnumVariant"
  | .OneofField => "OneofField"
  | .MapField => "MapField"
  | .Everything => "Everything"

/-- A collection of `FieldSelector`s, an opaque wrapper on a `u32` mask. -/
structure FieldFilter where
  mask : Nat
deriving DecidableEq

/-- `#[derive(Default)]`: the zero mask. -/
def FieldFilter.default : FieldFilter := FieldFilter.mk 0

/-- `FieldFilter::is_set`: `self.0 & (en as u32) != 0`. -/
def FieldFilter.is_set (f : FieldFilter) (en : FieldSelector) : Bool :=
  f.mask &&& en.toU32 != 0

/-- `From<FieldSelector> for FieldFilter`: singleton filter. -/
def FieldFilter.ofSelector (en : FieldSelector) : FieldFilter :=
  FieldFilter.mk en.toU32

/-- `BitOr<FieldFilter> for FieldFilter`: `FieldFilter(self.0 | rhs.0)`. -/
def FieldFilter.or (a b : FieldFilter) : FieldFilter :=
  FieldFilter.mk (a.mask ||| b.mask)

/-- `BitOr for FieldSelector` with a selector right-hand side. -/
def FieldSelector.orSel (a b : FieldSelector) : FieldFilter :=
  (FieldFilter.ofSelector a).or (FieldFilter.ofSelector b)

/-- `BitOr for FieldSelector` with a filter right-hand side. -/
def FieldSelector.orFil (a : FieldSelector) (b : FieldFilter) : FieldFilter :=
  (FieldFilter.ofSelector a).or b

/-- `TryFrom<u32> for FieldSelector`: matches the declared ordinary
variants in order (the wildcard `Everything` is not in the list),
otherwise `Err` with the input value unchanged. -/
def FieldSelector.tryFrom (value : Nat) : Except Nat FieldSelector :=
  if value = 2 then Except.ok .Double
  else if value = 4 then Except.ok .Float
  else if value = 8 then Except.ok .Int64
  else if value = 16 then Except.ok .Uint64
  else if value = 32 then Except.ok .Int32
  else if value = 64 then Except.ok .Fixed64
  else if value = 128 then Except.ok .Fixed32
  else if value = 256 then Except.ok .Bool
  else if value = 512 then Except.ok .String
  else if value = 1024 then Except.ok .Group
  else if value = 2048 then Except.ok .Message
  else if value = 4096 then Except.ok .Bytes
  else if value = 8192 then Except.ok .Uint32
  else if value = 16384 then Except.ok .Enum
  else if value = 32768 then Except.ok .Sfixed32
  else if value = 65536 then Except.ok .Sfixed64
  else if value = 131072 then Except.ok .Sint32
  else if value = 262144 then Except.ok .Sint64
  else if value = 524288 then Except.ok .NoDataEnumVariant
  else if value = 1048576 then Except.ok .OneofField
  else if value = 2097152 then Except.ok .MapField
  else Except.error value

/-- Modelled from the spec: the external wire-kind enumeration
(`prost_types::field_descriptor_proto::Type`), whose declaration lives
outside the packaged sources. Its members are exactly the wire kinds the
classifier's match lists: every scalar numeric kind, byte sequence, text,
embedded message, legacy group, and enumeration-typed field. -/
inductive ProtoType where
  | Double
  | Float
  | Int64
  | Uint64
  | Int32
  | Fixed64
  | Fixed32
  | Bool
  | String
  | Group
  | Message
  | Bytes
  | Uint32
  | Enum
  | Sfixed32
  | Sfixed64
  | Sint32
  | Sint64
deriving DecidableEq, Fintype

/-- The wire-kind name, for stating the "correspondingly named" mapping. -/
def ProtoType.name : ProtoType → Str
  | .Double => "Double"
  | .Float => "Float"
  | .Int64 => "Int64"
  | .Uint64 => "Uint64"
  | .Int32 => "Int32"
  | .Fixed64 => "Fixed64"
  | .Fixed32 => "Fixed32"
  | .Bool => "Bool"
  | .String => "String"
  | .Group => "Group"
  | .Message => "Message"
  | .Bytes => "Bytes"
  | .Uint32 => "Uint32"
  | .Enum => "Enum"
  | .Sfixed32 => "Sfixed32"
  | .Sfixed64 => "Sfixed64"
  | .Sint32 => "Sint32"
  | .Sint64 => "Sint64"

/-- `From<Type> for FieldSelector` (`impl_from_type!`): the exhaustive
match `Type::X => FieldSelector::X` with no default arm. -/
def FieldSelector.fromType : ProtoType → FieldSelector
  | .Double => .Double
  | .Float => .Float
  | .Int64 => .Int64
  | .Uint64 => .Uint64
  | .Int32 => .Int32
  | .Fixed64 => .Fixed64
  | .Fixed32 => .Fixed32
  | .Bool => .Bool
  | .String => .String
  | .Group => .Group
  | .Message => .Message
  | .Bytes => .Bytes
  | .Uint32 => .Uint32
  | .Enum => .Enum
  | .Sfixed32 => .Sfixed32
  | .Sfixed64 => .Sfixed64
  | .Sint32 => .Sint32
  | .Sint64 => .Sint64

/-- One rendered item of the `Debug` loop: the selector name when the
single-bit value has an owning variant, otherwise the source's
`write!(f, "Unknonwn({})", e)` marker. Generic over the domain, as the
source macro is. -/
def filterItem (tryF : Nat → Except Nat A) (name : A → String) (bit : Nat) :
    String :=
  match tryF bit with
  | Except.ok x => name x
  | Except.error e => "Unknonwn(" ++ toString e ++ ")"

/-- One iteration of the `Debug` rendering loop: if bit `idx` of the mask
is set, write the separator (when something was already written) and the
item for that bit. State is (text written so far, `written` flag). -/
def debugStep (item : Nat → String) (m : Nat) (st : String × Bool)
    (idx : Nat) : String × Bool :=
  if 2 ^ idx &&& m != 0 then
    ((st.1 ++ (if st.2 then " | " else "")) ++ item (2 ^ idx), true)
  else st

/-- The `fmt::Debug` loop: `for idx in 0..32`, starting from the written
domain-name prefix, followed by the closing `" )"`. -/
def debugRender (item : Nat → String) (opening : String) (m : Nat) :
    String :=
  ((List.range 32).foldl (debugStep item m) (opening, false)).1 ++ " )"

/-- `fmt::Debug for TypeFilter`. -/
def TypeFilter.debugFmt (f : TypeFilter) : String :=
  debugRender (filterItem TypeSelector.tryFrom TypeSelector.debugName)
    "TypeFilter( " f.mask

/-- `fmt::Debug for FieldFilter`. -/
def FieldFilter.debugFmt (f : FieldFilter) : String :=
  debugRender (filterItem FieldSelector.tryFrom FieldSelector.debugName)
    "FieldFilter( " f.mask

/-- Spec-side description of the rendered items: for each set bit of the
mask, in ascending bit-position order, the item for that bit. -/
def setItems (item : Nat → String) (m : Nat) (idxs : List Nat) :
    List String :=
  (idxs.filter (fun i => 2 ^ i &&& m != 0)).map (fun i => item (2 ^ i))

/-- Spec-side continuation join: each further item preceded by `" | "`. -/
def catSep : List String → String
  | [] => ""
  | s :: rest => (" | " ++ s) ++ catSep rest

/-- Spec-side separator join with no trailing separator: the first item,
then each remaining item preceded by `" | "`. -/
def joinSep : List String → String
  | [] => ""
  | s :: rest => s ++ catSep rest

/-- Once the `written` flag is set, the loop appends `" | "` before every
further item of a set bit. -/
theorem foldl_debugStep_written (item : Nat → String) (m : Nat)
    (idxs : List Nat) (acc : String) :
    idxs.foldl (debugStep item m) (acc, true) =
      (acc ++ catSep (setItems item m idxs), true) := by
  induction idxs generalizing acc with
  | nil => simp [setItems, catSep]
  | cons i rest ih =>
    by_cases h : (2 ^ i &&& m != 0) = true
    · simp [List.foldl_cons, debugStep, h, setItems, List.filter_cons, ih,
        catSep, String.append_assoc]
    · simp [List.foldl_cons, debugStep, h, setItems, List.filter_cons, ih]

/-- From the unwritten start state, the loop writes exactly the items of
the set bits in ascending bit order, joined by `" | "` with no trailing
separator. -/
theorem foldl_debugStep_unwritten (item : Nat → String) (m : Nat)
    (idxs : List Nat) (acc : String) :
    (idxs.foldl (debugStep item m) (acc, false)).1 =
      acc ++ joinSep (setItems item m idxs) := by
  induction idxs generalizing acc with
  | nil => simp [setItems, joinSep]
  | cons i rest ih =>
    by_cases h : (2 ^ i &&& m != 0) = true
    · simp [List.foldl_cons, debugStep, h, setItems, List.filter_cons,
        foldl_debugStep_written, joinSep, String.append_assoc]
    · simp [List.foldl_cons, debugStep, h, setItems, List.filter_cons, ih]

/-- The whole `Debug` rendering is the opening, the joined items of the
set bits in ascending order, and the closing. -/
theorem debugRender_eq (item : Nat → String) (opening : String) (m : Nat) :
    debugRender item opening m =
      (opening ++ joinSep (setItems item m (List.range 32))) ++ " )" := by
  simp [debugRender, foldl_debugStep_unwritten]

/-- C1: For every Filter in either domain (mask in `u32` range, as every
filter built by the API is), `is_set` with the wildcard `Everything` is
true exactly when the filter is non-empty (mask not zero) and false for
the empty filter, whatever bits the mask holds. -/
theorem wildcard_is_set_iff_nonempty :
    (∀ f : TypeFilter, f.mask < 2 ^ 32 →
      (f.is_set TypeSelector.Everything = true ↔ f.mask ≠ 0)) ∧
    (∀ f : FieldFilter, f.mask < 2 ^ 32 →
      (f.is_set FieldSelector.Everything = true ↔ f.mask ≠ 0)) := by
  have hmax : (4294967295 : Nat) = 2 ^ 32 - 1 := by norm_num
  constructor
  · intro f h
    have e : f.mask &&& 4294967295 = f.mask := by
      rw [hmax]; exact Nat.and_pow_two_sub_one_of_lt_two_pow h
    simp [TypeFilter.is_set, TypeSelector.toU32, e]
  · intro f h
    have e : f.mask &&& 4294967295 = f.mask := by
      rw [hmax]; exact Nat.and_pow_two_sub_one_of_lt_two_pow h
    simp [FieldFilter.is_set, FieldSelector.toU32, e]

/-- Witness for C1 at concrete filters: mask 4194304 (a bit assigned to
no FieldSelector) counts as non-empty, mask 0 as empty. -/
theorem wildcard_is_set_iff_nonempty_witness :
    (FieldFilter.mk 4194304).is_set FieldSelector.Everything = true ∧
    (TypeFilter.mk 0).is_set TypeSelector.Everything = false := by
  constructor
  · exact (wildcard_is_set_iff_nonempty.2 (FieldFilter.mk 4194304)
      (by norm_num)).mpr (by decide)
  · have h := (wildcard_is_set_iff_nonempty.1 (TypeFilter.mk 0)
      (by norm_num))
    revert h
    decide

/-- C2: The wire-kind classifier `From<Type> for FieldSelector` is total
(it is a Lean function on the full `ProtoType` enumeration) and maps each
wire kind to the field-level Selector of the same name, one-to-one. -/
theorem from_type_total_named_injective :
    (∀ t : ProtoType, (FieldSelector.fromType t).debugName = t.name) ∧
    (∀ t1 t2 : ProtoType,
      FieldSelector.fromType t1 = FieldSelector.fromType t2 → t1 = t2) :=
  ⟨by decide, by decide⟩

/-- Witness for C2: the name table at `Bytes`, injectivity applied at
`Sint64`. -/
theorem from_type_total_named_injective_witness :
    (FieldSelector.fromType ProtoType.Bytes).debugName =
      ProtoType.name ProtoType.Bytes ∧
    ProtoType.Sint64 = ProtoType.Sint64 :=
  ⟨from_type_total_named_injective.1 ProtoType.Bytes,
   from_type_total_named_injective.2 ProtoType.Sint64 ProtoType.Sint64 rfl⟩

/-- C3: Reverse lookup in either domain succeeds with the matching
variant on every declared ordinary bit value, and fails returning the
input unchanged on every other input (zero, the wildcard's all-ones
value, and composite values included). -/
theorem try_from_declared_ok_otherwise_err :
    (∀ s : TypeSelector, s ≠ TypeSelector.Everything →
      TypeSelector.tryFrom s.toU32 = Except.ok s) ∧
    (∀ v : Nat, (∀ s : TypeSelector, s ≠ TypeSelector.Everything →
        v ≠ s.toU32) →
      TypeSelector.tryFrom v = Except.error v) ∧
    (∀ s : FieldSelector, s ≠ FieldSelector.Everything →
      FieldSelector.tryFrom s.toU32 = Except.ok s) ∧
    (∀ v : Nat, (∀ s : FieldSelector, s ≠ FieldSelector.Everything →
        v ≠ s.toU32) →
      FieldSelector.tryFrom v = Except.error v) := by
  refine ⟨by decide, ?_, by decide, ?_⟩
  · intro v h
    have h1 : v ≠ 1 := h .ProtobufMessage (by decide)
    have h2 : v ≠ 2 := h .ProtobufEnum (by decide)
    have h3 : v ≠ 4 := h .ProtobufOneof (by decide)
    have h4 : v ≠ 8 := h .RustStruct (by decide)
    have h5 : v ≠ 16 := h .RustEnum (by decide)
    have h6 : v ≠ 32 := h .RustEnumCLike (by decide)
    have h7 : v ≠ 64 := h .RustEnumWithData (by decide)
    simp [TypeSelector.tryFrom, h1, h2, h3, h4, h5, h6, h7]
  · intro v h
    have g1 : v ≠ 2 := h .Double (by decide)
    have g2 : v ≠ 4 := h .Float (by decide)
    have g3 : v ≠ 8 := h .Int64 (by decide)
    have g4 : v ≠ 16 := h .Uint64 (by decide)
    have g5 : v ≠ 32 := h .Int32 (by decide)
    have g6 : v ≠ 64 := h .Fixed64 (by decide)
    have g7 : v ≠ 128 := h .Fixed32 (by decide)
    have g8 : v ≠ 256 := h .Bool (by decide)
    have g9 : v ≠ 512 := h .String (by decide)
    have g10 : v ≠ 1024 := h .Group (by decide)
    have g11 : v ≠ 2048 := h .Message (by decide)
    have g12 : v ≠ 4096 := h .Bytes (by decide)
    have g13 : v ≠ 8192 := h .Uint32 (by decide)
    have g14 : v ≠ 16384 := h .Enum (by decide)
    have g15 : v ≠ 32768 := h .Sfixed32 (by decide)
    have g16 : v ≠ 65536 := h .Sfixed64 (by decide)
    have g17 : v ≠ 131072 := h .Sint32 (by decide)
    have g18 : v ≠ 262144 := h .Sint64 (by decide)
    have g19 : v ≠ 524288 := h .NoDataEnumVariant (by decide)
    have g20 : v ≠ 1048576 := h .OneofField (by decide)
    have g21 : v ≠ 2097152 := h .MapField (by decide)
    simp [FieldSelector.tryFrom, g1, g2, g3, g4, g5, g6, g7, g8, g9, g10,
      g11, g12, g13, g14, g15, g16, g17, g18, g19, g20, g21]

/-- Witness for C3: success at a declared value, failure at zero, at the
all-ones wildcard value, and at the composite value 6. -/
theorem try_from_declared_ok_otherwise_err_witness :
    TypeSelector.tryFrom 2 = Except.ok TypeSelector.ProtobufEnum ∧
    TypeSelector.tryFrom 0 = Except.error 0 ∧
    FieldSelector.tryFrom 4294967295 = Except.error 4294967295 ∧
    FieldSelector.tryFrom 6 = Except.error 6 :=
  ⟨try_from_declared_ok_otherwise_err.1 .ProtobufEnum (by decide),
   try_from_declared_ok_otherwise_err.2.1 0 (by decide),
   try_from_declared_ok_otherwise_err.2.2.2 4294967295 (by decide),
   try_from_declared_ok_otherwise_err.2.2.2 6 (by decide)⟩

/-- C4: For every ordinary Selector of either domain, the singleton
filter built from it satisfies `is_set` on it. -/
theorem singleton_is_set_self :
    (∀ s : TypeSelector, s ≠ TypeSelector.Everything →
      (TypeFilter.ofSelector s).is_set s = true) ∧
    (∀ s : FieldSelector, s ≠ FieldSelector.Everything →
      (FieldFilter.ofSelector s).is_set s = true) :=
  ⟨by decide, by decide⟩

/-- Witness for C4 at `RustEnum` and `Bytes`. -/
theorem singleton_is_set_self_witness :
    (TypeFilter.ofSelector TypeSelector.RustEnum).is_set
      TypeSelector.RustEnum = true ∧
    (FieldFilter.ofSelector FieldSelector.Bytes).is_set
      FieldSelector.Bytes = true :=
  ⟨singleton_is_set_self.1 TypeSelector.RustEnum (by decide),
   singleton_is_set_self.2 FieldSelector.Bytes (by decide)⟩

/-- C5: For distinct ordinary Selectors of the same domain, the
singleton filter of the first does not match the second. -/
theorem singleton_not_set_distinct :
    (∀ s1 s2 : TypeSelector, s1 ≠ TypeSelector.Everything →
      s2 ≠ TypeSelector.Everything → s1 ≠ s2 →
      (TypeFilter.ofSelector s1).is_set s2 = false) ∧
    (∀ s1 s2 : FieldSelector, s1 ≠ FieldSelector.Everything →
      s2 ≠ FieldSelector.Everything → s1 ≠ s2 →
      (FieldFilter.ofSelector s1).is_set s2 = false) :=
  ⟨by decide, by decide⟩

/-- Witness for C5 at the pairs (`ProtobufMessage`, `RustStruct`) and
(`Sint64`, `MapField`). -/
theorem singleton_not_set_distinct_witness :
    (TypeFilter.ofSelector TypeSelector.ProtobufMessage).is_set
      TypeSelector.RustStruct = false ∧
    (FieldFilter.ofSelector FieldSelector.Sint64).is_set
      FieldSelector.MapField = false :=
  ⟨singleton_not_set_distinct.1 TypeSelector.ProtobufMessage
      TypeSelector.RustStruct (by decide) (by decide) (by decide),
   singleton_not_set_distinct.2 FieldSelector.Sint64
      FieldSelector.MapField (by decide) (by decide) (by decide)⟩

/-- C6: Every `BitOr` combination (Selector/Selector, Selector/Filter,
Filter/Filter) yields the filter whose mask is the bitwise OR of the
operand masks; Filter union is commutative and associative and the
default (empty) filter is its identity, in both domains. -/
theorem union_is_bitor_comm_assoc_identity :
    (∀ s1 s2 : TypeSelector,
      (TypeSelector.orSel s1 s2).mask = s1.toU32 ||| s2.toU32) ∧
    (∀ s : TypeSelector, ∀ f : TypeFilter,
      (TypeSelector.orFil s f).mask = s.toU32 ||| f.mask) ∧
    (∀ f g : TypeFilter, (f.or g).mask = f.mask ||| g.mask) ∧
    (∀ f g : TypeFilter, f.or g = g.or f) ∧
    (∀ f g h : TypeFilter, (f.or g).or h = f.or (g.or h)) ∧
    (∀ f : TypeFilter,
      TypeFilter.default.or f = f ∧ f.or TypeFilter.default = f) ∧
    (∀ s1 s2 : FieldSelector,
      (FieldSelector.orSel s1 s2).mask = s1.toU32 ||| s2.toU32) ∧
    (∀ s : FieldSelector, ∀ f : FieldFilter,
      (FieldSelector.orFil s f).mask = s.toU32 ||| f.mask) ∧
    (∀ f g : FieldFilter, (f.or g).mask = f.mask ||| g.mask) ∧
    (∀ f g : FieldFilter, f.or g = g.or f) ∧
    (∀ f g h : FieldFilter, (f.or g).or h = f.or (g.or h)) ∧
    (∀ f : FieldFilter,
      FieldFilter.default.or f = f ∧ f.or FieldFilter.default = f) := by
  refine ⟨fun s1 s2 => rfl, fun s f => rfl, fun f g => rfl, ?_, ?_, ?_,
    fun s1 s2 => rfl, fun s f => rfl, fun f g => rfl, ?_, ?_, ?_⟩
  · intro f g
    cases f; cases g
    simp [TypeFilter.or, Nat.lor_comm]
  · intro f g h
    cases f; cases g; cases h
    simp [TypeFilter.or, Nat.lor_assoc]
  · intro f
    cases f
    simp [TypeFilter.or, TypeFilter.default]
  · intro f g
    cases f; cases g
    simp [FieldFilter.or, Nat.lor_comm]
  · intro f g h
    cases f; cases g; cases h
    simp [FieldFilter.or, Nat.lor_assoc]
  · intro f
    cases f
    simp [FieldFilter.or, FieldFilter.default]

/-- C7: The default filter of either domain matches nothing: `is_set` is
false for every Selector, the wildcard included. -/
theorem default_filter_matches_nothing :
    (∀ s : TypeSelector, TypeFilter.default.is_set s = false) ∧
    (∀ s : FieldSelector, FieldFilter.default.is_set s = false) :=
  ⟨by decide, by decide⟩

/-- C10: A `FieldFilter` with mask exactly 1 (bit 0, which no ordinary
`FieldSelector` is assigned: the lowest is `Double = 2`) matches no
ordinary Selector, yet counts as non-empty under the wildcard; reverse
lookup of 1 fails returning 1; the `Debug` rendering shows only the
unrecognized-bit marker for value 1. -/
theorem field_filter_mask_one_edge_case :
    (∀ s : FieldSelector, s ≠ FieldSelector.Everything → s.toU32 ≠ 1) ∧
    (∀ s : FieldSelector, s ≠ FieldSelector.Everything →
      (FieldFilter.mk 1).is_set s = false) ∧
    (FieldFilter.mk 1).is_set FieldSelector.Everything = true ∧
    FieldSelector.tryFrom 1 = Except.error 1 ∧
    (FieldFilter.mk 1).debugFmt = "FieldFilter( Unknonwn(1) )" :=
  ⟨by decide, by decide, by decide, by decide, by decide⟩

/-- Witness for C10 at the lowest ordinary Selector `Double`. -/
theorem field_filter_mask_one_edge_case_witness :
    (FieldFilter.mk 1).is_set FieldSelector.Double = false :=
  field_filter_mask_one_edge_case.2.1 FieldSelector.Double (by decide)

set_option maxHeartbeats 2000000 in
/-- C8: The `Debug` rendering is `"Name( item | item | ... )"`: the empty
filter renders with no items, a singleton with the selector's name, and
two ordinary selectors with the lower-bit name first, separated by
`" | "`, with no trailing separator. -/
theorem debug_rendering_forms :
    TypeFilter.default.debugFmt = "TypeFilter(  )" ∧
    FieldFilter.default.debugFmt = "FieldFilter(  )" ∧
    (∀ s : TypeSelector, s ≠ TypeSelector.Everything →
      (TypeFilter.ofSelector s).debugFmt =
        ("TypeFilter( " ++ s.debugName) ++ " )") ∧
    (∀ s : FieldSelector, s ≠ FieldSelector.Everything →
      (FieldFilter.ofSelector s).debugFmt =
        ("FieldFilter( " ++ s.debugName) ++ " )") ∧
    (∀ s1 s2 : TypeSelector, s1 ≠ TypeSelector.Everything →
      s2 ≠ TypeSelector.Everything → s1.toU32 < s2.toU32 →
      (TypeSelector.orSel s1 s2).debugFmt =
        ((("TypeFilter( " ++ s1.debugName) ++ " | ") ++ s2.debugName)
          ++ " )") ∧
    (∀ s1 s2 : FieldSelector, s1 ≠ FieldSelector.Everything →
      s2 ≠ FieldSelector.Everything → s1.toU32 < s2.toU32 →
      (FieldSelector.orSel s1 s2).debugFmt =
        ((("FieldFilter( " ++ s1.debugName) ++ " | ") ++ s2.debugName)
          ++ " )") :=
  ⟨rfl, rfl, by decide, by decide, by decide, by decide⟩

/-- Witness for C8: the singleton and two-selector forms at concrete
selectors, bits in ascending order. -/
theorem debug_rendering_forms_witness :
    (TypeFilter.ofSelector TypeSelector.RustStruct).debugFmt =
      ("TypeFilter( " ++ TypeSelector.debugName TypeSelector.RustStruct)
        ++ " )" ∧
    (FieldSelector.orSel FieldSelector.Float FieldSelector.Group).debugFmt =
      ((("FieldFilter( " ++ FieldSelector.debugName FieldSelector.Float)
        ++ " | ") ++ FieldSelector.debugName FieldSelector.Group) ++ " )" :=
  ⟨debug_rendering_forms.2.2.1 TypeSelector.RustStruct (by decide),
   debug_rendering_forms.2.2.2.2.2 FieldSelector.Float FieldSelector.Group
     (by decide) (by decide) (by decide)⟩

/-- C9: The renderer never aborts on a set bit owned by no declared
variant: the full rendering of any filter is the item of every set bit in
ascending order joined by `" | "`, and the item of a bit whose reverse
lookup fails is the marker text carrying the offending raw value, after
which the remaining set bits' items still follow. -/
theorem debug_unrecognized_marker_continues :
    (∀ f : TypeFilter, f.debugFmt =
      ("TypeFilter( " ++ joinSep (setItems
        (filterItem TypeSelector.tryFrom TypeSelector.debugName) f.mask
        (List.range 32))) ++ " )") ∧
    (∀ v : Nat, TypeSelector.tryFrom v = Except.error v →
      filterItem TypeSelector.tryFrom TypeSelector.debugName v =
        ("Unknonwn(" ++ toString v) ++ ")") ∧
    (∀ f : FieldFilter, f.debugFmt =
      ("FieldFilter( " ++ joinSep (setItems
        (filterItem FieldSelector.tryFrom FieldSelector.debugName) f.mask
        (List.range 32))) ++ " )") ∧
    (∀ v : Nat, FieldSelector.tryFrom v = Except.error v →
      filterItem FieldSelector.tryFrom FieldSelector.debugName v =
        ("Unknonwn(" ++ toString v) ++ ")") := by
  refine ⟨fun f => ?_, fun v h => ?_, fun f => ?_, fun v h => ?_⟩
  · exact debugRender_eq _ _ f.mask
  · simp [filterItem, h]
  · exact debugRender_eq _ _ f.mask
  · simp [filterItem, h]

/-- Witness for C9: bit value 1 (field domain) and bit value 128 (type
domain) are owned by no declared variant and render as the marker. -/
theorem debug_unrecognized_marker_continues_witness :
    filterItem FieldSelector.tryFrom FieldSelector.debugName 1 =
      ("Unknonwn(" ++ toString 1) ++ ")" ∧
    filterItem TypeSelector.tryFrom TypeSelector.debugName 128 =
      ("Unknonwn(" ++ toString 128) ++ ")" :=
  ⟨debug_unrecognized_marker_continues.2.2.2 1 (by decide),
   debug_unrecognized_marker_continues.2.1 128 (by decide)⟩
